import Mathlib

/-!
Verification of the media-player control core (vidstack player):
source selection (`source-selection.ts`), the media request manager
(`media/controller/request-manager`), and the HLS lifecycle manager
(`use-hls.ts`), shallowly embedded in Lean 4.
-/

namespace Player

/-! ## JavaScript number model

JS numbers as used by the player: a finite rational, positive/negative
infinity, or NaN. `Math.min` / `Math.max` / arithmetic / comparisons follow
the JS semantics the handlers rely on (NaN propagates through arithmetic and
min/max; comparisons with NaN are false). -/

inductive JSNum where
  | nan : JSNum
  | posInf : JSNum
  | negInf : JSNum
  | fin : ℚ → JSNum
deriving DecidableEq, Repr

namespace JSNum

def neg : JSNum → JSNum
  | nan => nan
  | posInf => negInf
  | negInf => posInf
  | fin q => fin (-q)

def add : JSNum → JSNum → JSNum
  | nan, _ => nan
  | _, nan => nan
  | posInf, negInf => nan
  | negInf, posInf => nan
  | posInf, _ => posInf
  | _, posInf => posInf
  | negInf, _ => negInf
  | _, negInf => negInf
  | fin a, fin b => fin (a + b)

def sub (a b : JSNum) : JSNum := add a (neg b)

/-- JS `<` comparison: false whenever either operand is NaN. -/
def ltb : JSNum → JSNum → Bool
  | nan, _ => false
  | _, nan => false
  | negInf, negInf => false
  | negInf, _ => true
  | _, negInf => false
  | posInf, _ => false
  | fin _, posInf => true
  | fin a, fin b => decide (a < b)

/-- JS `>=` comparison: false whenever either operand is NaN. -/
def geb : JSNum → JSNum → Bool
  | nan, _ => false
  | _, nan => false
  | posInf, _ => true
  | _, posInf => false
  | _, negInf => true
  | negInf, _ => false
  | fin a, fin b => decide (b ≤ a)

/-- `Math.max`: NaN if either argument is NaN. -/
def max (a b : JSNum) : JSNum :=
  if a = nan ∨ b = nan then nan else if ltb a b then b else a

/-- `Math.min`: NaN if either argument is NaN. -/
def min (a b : JSNum) : JSNum :=
  if a = nan ∨ b = nan then nan else if ltb a b then a else b

/-- `Math.abs`. -/
def abs : JSNum → JSNum
  | nan => nan
  | posInf => posInf
  | negInf => posInf
  | fin q => fin |q|

/-- `Number.isFinite`. -/
def isFinite : JSNum → Bool
  | fin _ => true
  | _ => false

/-- `Number.isNaN`. -/
def isNaN : JSNum → Bool
  | nan => true
  | _ => false

end JSNum

/-! ## Source model (`source-selection.ts`)

A source's `src` is either a string URL or an opaque non-string handle
(e.g. a `MediaStream`); handles are identified by a tag so equality is
decidable. -/

inductive SrcVal where
  | str : String → SrcVal
  | handle : ℕ → SrcVal
deriving DecidableEq, Repr

def SrcVal.isString : SrcVal → Bool
  | .str _ => true
  | .handle _ => false

def SrcVal.startsWithBlob : SrcVal → Bool
  | .str s => s.startsWith ("blob:")
  | .handle _ => false

/-- A normalized media source: `{ src, type }` with `type` always present. -/
structure MediaSrc where
  src : SrcVal
  type : String
deriving DecidableEq, Repr

/-- A user-supplied source entry before normalization: `src` plus an optional
explicit `type` (absent ⇒ `undefined` in JS, triggering the `??` default). -/
structure SrcEntry where
  src : SrcVal
  type : Option String
deriving DecidableEq, Repr

/-- The shape of the `src` player property fed to `normalizeSrc`: a bare
string, a bare non-string handle (no `src` field), a single source object,
or an array of source objects. -/
inductive SrcProp where
  | str : String → SrcProp
  | handleVal : ℕ → SrcProp
  | obj : SrcEntry → SrcProp
  | arr : List SrcEntry → SrcProp
deriving DecidableEq, Repr

/-- The per-entry body of `normalizeSrc`'s `.map`:
`{ src, type: type ?? (!isString(src) || src.startsWith('blob:') ? 'video/object' : '?') }`. -/
def normalizeEntry (e : SrcEntry) : MediaSrc :=
  { src := e.src
    type := e.type.getD
      (if !e.src.isString || e.src.startsWithBlob then ("video/object") else ("?")) }

/-- `normalizeSrc` from `source-selection.ts`: wrap the prop into an entry
list (`isArray(src) ? src : [!isString(src) && 'src' in src ? src : { src }]`)
and normalize each entry. -/
def normalizeSrc : SrcProp → List MediaSrc
  | .str s => [normalizeEntry { src := .str s, type := none }]
  | .handleVal h => [normalizeEntry { src := .handle h, type := none }]
  | .obj e => [normalizeEntry e]
  | .arr l => l.map normalizeEntry

/-- A provider loader as the selector consumes it: its `canPlay` capability
probe (`MediaProviderLoader` interface). -/
structure MediaProviderLoader where
  canPlay : MediaSrc → Bool

/-- A source is playable iff some loader in the list can play it. -/
def isPlayable (loaders : List MediaProviderLoader) (s : MediaSrc) : Bool :=
  loaders.any fun l => l.canPlay s

/-- The sentinel the selector starts from: `{ src: '', type: '' }` with no
loader. -/
def emptySelection : MediaSrc × Option MediaProviderLoader :=
  ({ src := .str (""), type := ("") }, none)

/-- One iteration of the selector's `for (const src of sources)` loop:
`const loader = $loaders().find((loader) => loader.canPlay(src));
 if (loader) { newSource = src; newLoader = loader; }`. -/
def selectStep (loaders : List MediaProviderLoader)
    (acc : MediaSrc × Option MediaProviderLoader) (src : MediaSrc) :
    MediaSrc × Option MediaProviderLoader :=
  match loaders.find? (fun l => l.canPlay src) with
  | some l => (src, some l)
  | none => acc

/-- The source-selection loop of `useSourceSelection` (lines 52–61): fold the
step over the normalized source list, starting from the empty selection. -/
def selectSource (sources : List MediaSrc) (loaders : List MediaProviderLoader) :
    MediaSrc × Option MediaProviderLoader :=
  sources.foldl (selectStep loaders) emptySelection

/-- Restatement of the spec's words for refinement: the committed source is
the last source in iteration order that some loader can play. -/
def lastPlayable (sources : List MediaSrc) (loaders : List MediaProviderLoader) :
    Option MediaSrc :=
  (sources.filter (isPlayable loaders)).getLast?

lemma find_isSome_of_isPlayable (loaders : List MediaProviderLoader) (s : MediaSrc)
    (h : isPlayable loaders s = true) :
    ∃ l, loaders.find? (fun lo => lo.canPlay s) = some l := by
  rw [isPlayable, List.any_eq_true] at h
  obtain ⟨l, hl, hcan⟩ := h
  have : (loaders.find? (fun lo => lo.canPlay s)).isSome := by
    rw [List.find?_isSome]
    exact ⟨l, hl, hcan⟩
  exact Option.isSome_iff_exists.mp this

lemma find_eq_none_of_not_playable (loaders : List MediaProviderLoader) (s : MediaSrc)
    (h : isPlayable loaders s = false) :
    loaders.find? (fun lo => lo.canPlay s) = none := by
  rw [List.find?_eq_none]
  intro l hl
  rw [isPlayable, List.any_eq_false] at h
  simp [h l hl]

/-- Characterization of the selection fold: from any accumulator, the result
is the last playable source (paired with its first matching loader) when one
exists, and the accumulator otherwise. -/
lemma selectSource_foldl_char (loaders : List MediaProviderLoader)
    (sources : List MediaSrc) :
    ∀ acc, sources.foldl (selectStep loaders) acc =
      match lastPlayable sources loaders with
      | some b => (b, loaders.find? (fun l => l.canPlay b))
      | none => acc := by
  induction sources using List.reverseRecOn with
  | nil => intro acc; simp [lastPlayable]
  | append_singleton xs x ih =>
    intro acc
    rw [List.foldl_append, List.foldl_cons, List.foldl_nil, ih]
    by_cases hx : isPlayable loaders x = true
    · obtain ⟨l, hl⟩ := find_isSome_of_isPlayable loaders x hx
      have hlast : lastPlayable (xs ++ [x]) loaders = some x := by
        rw [lastPlayable, List.filter_append]
        simp [hx, List.getLast?_concat]
      rw [hlast]
      cases hxs : lastPlayable xs loaders with
      | none => simp [selectStep, hl]
      | some b => simp [selectStep, hl]
    · have hx' : isPlayable loaders x = false := by
        simpa using hx
      have hlast : lastPlayable (xs ++ [x]) loaders = lastPlayable xs loaders := by
        rw [lastPlayable, lastPlayable, List.filter_append]
        simp [hx']
      rw [hlast]
      have hstep : ∀ a, selectStep loaders a x = a := by
        intro a
        rw [selectStep, find_eq_none_of_not_playable loaders x hx']
      cases hxs : lastPlayable xs loaders with
      | none => simp [hstep]
      | some b => simp [hstep]

/-! ## Media request manager model (`createMediaRequestManager`)

State visible to the handlers: the media store (`$media`), the attached
provider (`$provider`, with its optional fullscreen adapter), the request
queue, the request-context signals, the player-level fullscreen and screen
orientation adapters, and the `fullscreenOrientation` prop. Provider
mutations and awaited calls are recorded as an ordered action trace; events
passed to `handler.handle` are recorded as an event list; a synchronously
thrown error is recorded in `thrown`. -/

/-- Mirror of the `MediaStore` fields the request manager reads or writes. -/
structure MediaStore where
  canLoad : Bool
  canPlay : Bool
  muted : Bool
  paused : Bool
  ended : Bool
  seeking : Bool
  canSeek : Bool
  live : Bool
  liveEdge : Bool
  volume : ℚ
  seekableStart : JSNum
  seekableEnd : JSNum
  liveSyncPosition : Option JSNum
  userBehindLiveEdge : Bool
  canLoadPoster : Bool
  attemptingAutoplay : Bool
deriving DecidableEq, Repr

/-- A fullscreen adapter (`{ supported, active }`), either the player-level
one or a provider's own. -/
structure FullscreenAdapter where
  supported : Bool
  active : Bool
deriving DecidableEq, Repr

/-- The attached media provider as the request manager sees it: its optional
fullscreen capability. -/
structure ProviderInfo where
  fullscreen : Option FullscreenAdapter
deriving DecidableEq, Repr

/-- The keyed last-write-wins request queue (`MediaRequestQueueRecord`): one
optional attribution event id per category. -/
structure RequestQueue where
  load : Option ℕ
  play : Option ℕ
  pause : Option ℕ
  volume : Option ℕ
  fullscreen : Option ℕ
  seeked : Option ℕ
  seeking : Option ℕ
  userIdle : Option ℕ
deriving DecidableEq, Repr

def emptyQueue : RequestQueue := ⟨none, none, none, none, none, none, none, none⟩

inductive QueueKey where
  | load | play | pause | volume | fullscreen | seeked | seeking | userIdle
deriving DecidableEq, Repr

/-- `requests._queue._enqueue(key, event)`: last write wins per category. -/
def RequestQueue.enqueue (q : RequestQueue) (k : QueueKey) (eid : ℕ) : RequestQueue :=
  match k with
  | .load => { q with load := some eid }
  | .play => { q with play := some eid }
  | .pause => { q with pause := some eid }
  | .volume => { q with volume := some eid }
  | .fullscreen => { q with fullscreen := some eid }
  | .seeked => { q with seeked := some eid }
  | .seeking => { q with seeking := some eid }
  | .userIdle => { q with userIdle := some eid }

/-- `requests._queue._delete(key)`. -/
def RequestQueue.del (q : RequestQueue) (k : QueueKey) : RequestQueue :=
  match k with
  | .load => { q with load := none }
  | .play => { q with play := none }
  | .pause => { q with pause := none }
  | .volume => { q with volume := none }
  | .fullscreen => { q with fullscreen := none }
  | .seeked => { q with seeked := none }
  | .seeking => { q with seeking := none }
  | .userIdle => { q with userIdle := none }

/-- Fullscreen request targets (`MediaFullscreenRequestTarget`). -/
inductive FSTarget where
  | preferMedia | media | provider
deriving DecidableEq, Repr

/-- Combined state read and written by the request manager's handlers. -/
structure ManagerState where
  store : MediaStore
  provider : Option ProviderInfo
  queue : RequestQueue
  isSeeking : Bool
  isLooping : Bool
  isReplay : Bool
  fsSupported : Bool
  fsActive : Bool
  orientationSupported : Bool
  orientationLocked : Bool
  fullscreenOrientation : Option String
  userIdlePaused : Bool
deriving DecidableEq, Repr

/-- Provider mutations and awaited calls, in the order the handler issues
them. The list order is the await/assignment order on the single JS thread. -/
inductive Action where
  | setMuted : Bool → Action
  | setVolume : ℚ → Action
  | setCurrentTime : JSNum → Action
  | providerPlay : Action
  | providerPause : Action
  | orientationLock : String → Action
  | orientationUnlock : Action
  | fsEnter : Action
  | fsExit : Action
deriving DecidableEq, Repr

/-- Player-level events passed to `handler.handle` by the request manager.
`playFail` carries the coerced error and the `autoplay` property, which is
`none` when the handler never assigns it (JS `undefined`). -/
inductive PlayerEvent where
  | canLoadEvt : PlayerEvent
  | playFail : String → Option Bool → PlayerEvent
  | fullscreenError : String → PlayerEvent
deriving DecidableEq, Repr

/-- `coerceToError` from `utils/error`: errors are modelled by their message. -/
def coerceToError (e : String) : String := e

/-- Result of running one handler to completion (across its awaits). -/
structure Outcome where
  state : ManagerState
  actions : List Action
  events : List PlayerEvent
  thrown : Option String
deriving DecidableEq, Repr

/-- The no-effect outcome of a guard-rejected (no-op) handler. -/
def Outcome.pure (st : ManagerState) : Outcome := ⟨st, [], [], none⟩

/-- Behavior of the provider's asynchronous calls: `none` means the promise
resolves, `some e` that it rejects with error `e`. -/
structure ProviderEnv where
  playRejects : Option String
  pauseRejects : Option String
deriving DecidableEq, Repr

def resolvingEnv : ProviderEnv := ⟨none, none⟩

/-- Error message of `throwIfNotReadyForPlayback`. -/
def notReadyMsg : String := ("media not ready - wait for can-play event")

/-- Error message of `throwIfFullscreenNotSupported`. -/
def fsNotSupportedMsg : String := ("no fullscreen support")

/-- The guard of `throwIfNotReadyForPlayback`:
`if (provider && peek(() => $player()?.state.canPlay)) return; throw ...`
(the player's `state` is the media store). -/
def readyForPlayback (provider : Option ProviderInfo) (canPlay : Bool) : Bool :=
  provider.isSome && canPlay

/-- `onStartLoading` (request handler): no-op when loading is already
allowed; otherwise records attribution and fires the can-load event. -/
def onStartLoading (eid : ℕ) (st : ManagerState) : Outcome :=
  if st.store.canLoad then Outcome.pure st
  else
    { state := { st with queue := st.queue.enqueue .load eid }
      actions := [], events := [.canLoadEvt], thrown := none }

/-- `onMuteRequest`: no-op when already muted, else enqueue `volume`
attribution and set `provider.muted = true`. -/
def onMuteRequest (eid : ℕ) (st : ManagerState) : Outcome :=
  if st.store.muted then Outcome.pure st
  else
    { state := { st with queue := st.queue.enqueue .volume eid }
      actions := [.setMuted true], events := [], thrown := none }

/-- `onUnmuteRequest`: no-op when not muted, else unmute the provider and,
when the store volume is exactly 0, also set the provider volume to 0.25. -/
def onUnmuteRequest (eid : ℕ) (st : ManagerState) : Outcome :=
  if !st.store.muted then Outcome.pure st
  else
    let st1 : ManagerState := { st with queue := st.queue.enqueue .volume eid }
    if st.store.volume = 0 then
      { state := { st1 with queue := st1.queue.enqueue .volume eid }
        actions := [.setMuted false, .setVolume (1/4)], events := [], thrown := none }
    else
      { state := st1, actions := [.setMuted false], events := [], thrown := none }

/-- `onPlayRequest`: no-op unless paused; enqueue `play` attribution, await
`provider.play()`; a rejection is caught and surfaced as a play-fail event
carrying the coerced error (the `autoplay` property is never assigned in
this handler). -/
def onPlayRequest (env : ProviderEnv) (eid : ℕ) (st : ManagerState) : Outcome :=
  if !st.store.paused then Outcome.pure st
  else
    let st1 : ManagerState := { st with queue := st.queue.enqueue .play eid }
    match env.playRejects with
    | none => { state := st1, actions := [.providerPlay], events := [], thrown := none }
    | some e =>
      { state := st1, actions := [.providerPlay]
        events := [.playFail (coerceToError e) none], thrown := none }

/-- `onPauseRequest`: no-op unless playing; enqueue `pause` attribution,
await `provider.pause()`; a rejection deletes the `pause` attribution record
and is only logged — no event is dispatched. -/
def onPauseRequest (env : ProviderEnv) (eid : ℕ) (st : ManagerState) : Outcome :=
  if st.store.paused then Outcome.pure st
  else
    let st1 : ManagerState := { st with queue := st.queue.enqueue .pause eid }
    match env.pauseRejects with
    | none => { state := st1, actions := [.providerPause], events := [], thrown := none }
    | some _ =>
      { state := { st1 with queue := st1.queue.del .pause }
        actions := [.providerPause], events := [], thrown := none }

/-- `onSeekingRequest`: record attribution, mark the store as seeking, set
the `_$isSeeking` signal. -/
def onSeekingRequest (eid : ℕ) (st : ManagerState) : Outcome :=
  { state :=
      { st with
        queue := st.queue.enqueue .seeking eid
        store := { st.store with seeking := true }
        isSeeking := true }
    actions := [], events := [], thrown := none }

/-- The clamped seek target of `onSeekRequest`:
`Math.min(Math.max($media.seekableStart + 0.1, event.detail), $media.seekableEnd - 0.1)`. -/
def seekBound (start finish t : JSNum) : JSNum :=
  JSNum.min (JSNum.max (start.add (.fin (1/10))) t) (finish.sub (.fin (1/10)))

/-- `onSeekRequest` (seek commit): arm replay when ended, clear scrubbing
state, clamp the requested time, bail out when the clamp is non-finite or
seeking is disallowed, otherwise set `provider.currentTime` and possibly
mark the user as behind the live edge. -/
def onSeekRequest (t : JSNum) (trusted : Bool) (eid : ℕ) (st : ManagerState) : Outcome :=
  let st1 : ManagerState := { st with isReplay := if st.store.ended then true else st.isReplay }
  let st2 : ManagerState := { st1 with isSeeking := false, queue := st1.queue.del .seeking }
  let bound := seekBound st.store.seekableStart st.store.seekableEnd t
  if !bound.isFinite || !st.store.canSeek then
    { state := st2, actions := [], events := [], thrown := none }
  else
    let st3 : ManagerState := { st2 with queue := st2.queue.enqueue .seeked eid }
    let behind := st.store.live && trusted && ((st.store.seekableEnd.sub bound).abs.geb (.fin 2))
    { state :=
        { st3 with
          store :=
            { st3.store with
              userBehindLiveEdge := if behind then true else st3.store.userBehindLiveEdge } }
      actions := [.setCurrentTime bound], events := [], thrown := none }

/-- The manager's internal `seekToLiveEdge`: clears the behind-live-edge
flag, re-checks liveness/seekability, runs the readiness guard, then sets
`provider.currentTime = $media.liveSyncPosition ?? $media.seekableEnd - 2`. -/
def seekToLiveEdgeFn (st : ManagerState) : Outcome :=
  let st1 : ManagerState :=
    { st with store := { st.store with userBehindLiveEdge := false } }
  if !st.store.live || st.store.liveEdge || !st.store.canSeek then Outcome.pure st1
  else if readyForPlayback st.provider st.store.canPlay then
    { state := st1
      actions :=
        [.setCurrentTime (st.store.liveSyncPosition.getD (st.store.seekableEnd.sub (.fin 2)))]
      events := [], thrown := none }
  else
    { state := st1, actions := [], events := [], thrown := some notReadyMsg }

/-- `onSeekToLiveEdgeRequest`: guarded by liveness/edge/seekability, records
attribution, then calls `seekToLiveEdge` with failures logged, not thrown. -/
def onSeekToLiveEdgeRequest (eid : ℕ) (st : ManagerState) : Outcome :=
  if !st.store.live || st.store.liveEdge || !st.store.canSeek then Outcome.pure st
  else
    let st1 : ManagerState := { st with queue := st.queue.enqueue .seeked eid }
    let r := seekToLiveEdgeFn st1
    { r with thrown := none }

/-- `onVolumeChangeRequest`: no-op when unchanged; set the provider volume,
and when the new volume is audible while muted also unmute the provider. -/
def onVolumeChangeRequest (v : ℚ) (eid : ℕ) (st : ManagerState) : Outcome :=
  if st.store.volume = v then Outcome.pure st
  else
    let st1 : ManagerState := { st with queue := st.queue.enqueue .volume eid }
    if 0 < v ∧ st.store.muted then
      { state := { st1 with queue := st1.queue.enqueue .volume eid }
        actions := [.setVolume v, .setMuted false], events := [], thrown := none }
    else
      { state := st1, actions := [.setVolume v], events := [], thrown := none }

/-- Target-surface resolution shared by `enterFullscreen`/`exitFullscreen`:
`(target === 'prefer-media' && fullscreen.supported) || target === 'media'
 ? fullscreen : provider?.fullscreen`. -/
def resolveFS (target : FSTarget) (st : ManagerState) : Option FullscreenAdapter :=
  if (target = FSTarget.preferMedia ∧ st.fsSupported) ∨ target = FSTarget.media then
    some ⟨st.fsSupported, st.fsActive⟩
  else st.provider.bind ProviderInfo.fullscreen

/-- The manager's `enterFullscreen`: resolve the surface, throw when it is
missing or unsupported, no-op when already active, await the orientation
lock (when a lock preference is configured and the adapter is supported)
before awaiting the fullscreen enter call. -/
def enterFullscreenFn (target : FSTarget) (st : ManagerState) : Outcome :=
  match resolveFS target st with
  | none => { state := st, actions := [], events := [], thrown := some fsNotSupportedMsg }
  | some f =>
    if !f.supported then
      { state := st, actions := [], events := [], thrown := some fsNotSupportedMsg }
    else if f.active then Outcome.pure st
    else
      match st.fullscreenOrientation with
      | some lockType =>
        if st.orientationSupported then
          { state := { st with orientationLocked := true }
            actions := [.orientationLock lockType, .fsEnter], events := [], thrown := none }
        else { state := st, actions := [.fsEnter], events := [], thrown := none }
      | none => { state := st, actions := [.fsEnter], events := [], thrown := none }

/-- The manager's `exitFullscreen`: resolve the surface, throw when it is
missing or unsupported, no-op when not active, await the orientation unlock
(when a lock is active) before awaiting the fullscreen exit call. -/
def exitFullscreenFn (target : FSTarget) (st : ManagerState) : Outcome :=
  match resolveFS target st with
  | none => { state := st, actions := [], events := [], thrown := some fsNotSupportedMsg }
  | some f =>
    if !f.supported then
      { state := st, actions := [], events := [], thrown := some fsNotSupportedMsg }
    else if !f.active then Outcome.pure st
    else if st.orientationLocked then
      { state := { st with orientationLocked := false }
        actions := [.orientationUnlock, .fsExit], events := [], thrown := none }
    else { state := st, actions := [.fsExit], events := [], thrown := none }

/-- `onEnterFullscreenRequest`: enqueue attribution, await `enterFullscreen`,
convert any failure into a fullscreen-error event. -/
def onEnterFullscreenRequest (target : FSTarget) (eid : ℕ) (st : ManagerState) : Outcome :=
  let st1 : ManagerState := { st with queue := st.queue.enqueue .fullscreen eid }
  let r := enterFullscreenFn target st1
  match r.thrown with
  | some e =>
    { state := r.state, actions := r.actions
      events := r.events ++ [.fullscreenError (coerceToError e)], thrown := none }
  | none => r

/-- `onExitFullscreenRequest`: enqueue attribution, await `exitFullscreen`,
convert any failure into a fullscreen-error event. -/
def onExitFullscreenRequest (target : FSTarget) (eid : ℕ) (st : ManagerState) : Outcome :=
  let st1 : ManagerState := { st with queue := st.queue.enqueue .fullscreen eid }
  let r := exitFullscreenFn target st1
  match r.thrown with
  | some e =>
    { state := r.state, actions := r.actions
      events := r.events ++ [.fullscreenError (coerceToError e)], thrown := none }
  | none => r

/-- `onResumeIdlingRequest`: record attribution and unpause idle tracking. -/
def onResumeIdlingRequest (eid : ℕ) (st : ManagerState) : Outcome :=
  { state := { st with queue := st.queue.enqueue .userIdle eid, userIdlePaused := false }
    actions := [], events := [], thrown := none }

/-- `onPauseIdlingRequest`: record attribution and pause idle tracking. -/
def onPauseIdlingRequest (eid : ℕ) (st : ManagerState) : Outcome :=
  { state := { st with queue := st.queue.enqueue .userIdle eid, userIdlePaused := true }
    actions := [], events := [], thrown := none }

/-- `onShowPosterRequest`: `$media.canLoadPoster = true`. -/
def onShowPosterRequest (st : ManagerState) : Outcome :=
  { state := { st with store := { st.store with canLoadPoster := true } }
    actions := [], events := [], thrown := none }

/-- `onHidePosterRequest`: `$media.canLoadPoster = false`. -/
def onHidePosterRequest (st : ManagerState) : Outcome :=
  { state := { st with store := { st.store with canLoadPoster := false } }
    actions := [], events := [], thrown := none }

/-- The manager's internal `play`: no-op unless paused; readiness guard; on
success rewind when ended and call `provider.play()`; a synchronous throw is
converted into a play-fail event carrying `$media.attemptingAutoplay` and
rethrown. The returned promise's rejection is not caught here. -/
def playFn (_env : ProviderEnv) (st : ManagerState) : Outcome :=
  if !st.store.paused then Outcome.pure st
  else if readyForPlayback st.provider st.store.canPlay then
    { state := st
      actions :=
        (if st.store.ended then [Action.setCurrentTime (st.store.seekableStart.add (.fin (1/10)))]
         else []) ++ [.providerPlay]
      events := [], thrown := none }
  else
    { state := st, actions := []
      events := [.playFail notReadyMsg (some st.store.attemptingAutoplay)]
      thrown := some notReadyMsg }

/-- The manager's internal `pause`: no-op unless playing; readiness guard
(uncaught); then `provider.pause()`. -/
def pauseFn (_env : ProviderEnv) (st : ManagerState) : Outcome :=
  if st.store.paused then Outcome.pure st
  else if readyForPlayback st.provider st.store.canPlay then
    { state := st, actions := [.providerPause], events := [], thrown := none }
  else
    { state := st, actions := [], events := [], thrown := some notReadyMsg }

/-- `onLoopRequest`, modelled at the completion of its animation-frame
callback: arm the looping/replay flags, await the internal `play`, and roll
both flags back when the awaited play rejects (synchronously thrown guard
error or rejected `provider.play()` promise). -/
def onLoopRequest (env : ProviderEnv) (st : ManagerState) : Outcome :=
  let st1 : ManagerState := { st with isLooping := true, isReplay := true }
  let r := playFn env st1
  let rejected := r.thrown.isSome || (r.actions.contains .providerPlay && env.playRejects.isSome)
  if rejected then
    { state := { r.state with isLooping := false, isReplay := false }
      actions := r.actions, events := r.events, thrown := none }
  else { r with thrown := none }

/-- The media request event types the manager subscribes to, with the
payloads their handlers consume. -/
inductive MediaRequest where
  | startLoading : MediaRequest
  | muteRequest : MediaRequest
  | unmuteRequest : MediaRequest
  | playRequest : MediaRequest
  | pauseRequest : MediaRequest
  | seekingRequest : MediaRequest
  | seekRequest : JSNum → Bool → MediaRequest
  | liveEdgeRequest : MediaRequest
  | volumeChangeRequest : ℚ → MediaRequest
  | enterFullscreenRequest : FSTarget → MediaRequest
  | exitFullscreenRequest : FSTarget → MediaRequest
  | resumeIdleRequest : MediaRequest
  | pauseIdleRequest : MediaRequest
  | showPosterRequest : MediaRequest
  | hidePosterRequest : MediaRequest
  | loopRequest : MediaRequest
deriving DecidableEq, Repr

/-- The shared listener installed for every request event type:
`event.stopPropagation(); if (peek($provider)) handler(event);` — the
handler only runs while a provider is attached. -/
def handleRequestEvent (env : ProviderEnv) (eid : ℕ) (req : MediaRequest)
    (st : ManagerState) : Outcome :=
  if st.provider.isNone then Outcome.pure st
  else
    match req with
    | .startLoading => onStartLoading eid st
    | .muteRequest => onMuteRequest eid st
    | .unmuteRequest => onUnmuteRequest eid st
    | .playRequest => onPlayRequest env eid st
    | .pauseRequest => onPauseRequest env eid st
    | .seekingRequest => onSeekingRequest eid st
    | .seekRequest t trusted => onSeekRequest t trusted eid st
    | .liveEdgeRequest => onSeekToLiveEdgeRequest eid st
    | .volumeChangeRequest v => onVolumeChangeRequest v eid st
    | .enterFullscreenRequest target => onEnterFullscreenRequest target eid st
    | .exitFullscreenRequest target => onExitFullscreenRequest target eid st
    | .resumeIdleRequest => onResumeIdlingRequest eid st
    | .pauseIdleRequest => onPauseIdlingRequest eid st
    | .showPosterRequest => onShowPosterRequest st
    | .hidePosterRequest => onHidePosterRequest st
    | .loopRequest => onLoopRequest env st

/-- Observable provider state, for following the effect of an action trace. -/
structure ProviderState where
  muted : Bool
  volume : ℚ
  currentTime : JSNum
deriving DecidableEq, Repr

def applyAction (p : ProviderState) : Action → ProviderState
  | .setMuted b => { p with muted := b }
  | .setVolume q => { p with volume := q }
  | .setCurrentTime t => { p with currentTime := t }
  | _ => p

def applyActions (p : ProviderState) (acts : List Action) : ProviderState :=
  acts.foldl applyAction p

/-! ## HLS lifecycle manager model (`use-hls.ts`)

The engine instance reference (`$instance`) is modelled by an optional
instance tag; `onError` and `onLevelLoaded` are modelled by the calls they
make on the instance and the events they dispatch. -/

/-- Effect of the `onError` handler: which instance methods were called and
the published instance reference afterwards. -/
structure HLSErrorOutcome where
  startLoadCalled : Bool
  recoverMediaErrorCalled : Bool
  destroyCalled : Bool
  instanceAfter : Option ℕ
deriving DecidableEq, Repr

/-- `onError` from `use-hls.ts`: acts only on fatal errors; network errors
restart the load, media errors attempt in-place recovery, every other fatal
category destroys the instance and clears the published reference (the
optional-chaining calls are made only when an instance is present). -/
def hlsOnError (fatal : Bool) (etype : String) (inst : Option ℕ) : HLSErrorOutcome :=
  if fatal then
    if etype = "networkError" then ⟨inst.isSome, false, false, inst⟩
    else if etype = "mediaError" then ⟨false, inst.isSome, false, inst⟩
    else ⟨false, false, inst.isSome, none⟩
  else ⟨false, false, false, inst⟩

/-- The fields of `data.details` that `onLevelLoaded` consumes: the playlist
type (`'EVENT'`/`'VOD'`/absent), liveness, and the reported total duration. -/
structure LevelDetails where
  ptype : Option String
  live : Bool
  totalduration : JSNum
deriving DecidableEq, Repr

/-- Effect of the `onLevelLoaded` handler: the dispatched stream-type and
duration changes and whether a can-play signal was forced on the media
element. -/
structure LevelLoadedOutcome where
  streamType : Option String
  durationChange : Option JSNum
  forcedCanPlay : Bool
deriving DecidableEq, Repr

/-- `onLevelLoaded` from `use-hls.ts`: inert once `$store.canPlay` is set;
otherwise classifies the stream as live-DVR (live, playlist type `EVENT`,
finite total duration), live, or on-demand, dispatches the duration, and
forces a can-play signal on the media element. -/
def hlsOnLevelLoaded (canPlay : Bool) (d : LevelDetails) : LevelLoadedOutcome :=
  if canPlay then ⟨none, none, false⟩
  else
    ⟨some
        (if d.live then
          if d.ptype = some ("EVENT") ∧ d.totalduration.isFinite then ("live:dvr") else ("live")
        else ("on-demand")),
      some d.totalduration, true⟩

/-! ## Concrete fixtures used by witnesses and counterexamples -/

/-- A baseline media store: loadable, ready to play, paused, muted off,
audible, seekable over `[0, 10]`, not live. -/
def baseStore : MediaStore :=
  { canLoad := true, canPlay := true, muted := false, paused := true, ended := false
    seeking := false, canSeek := true, live := false, liveEdge := false, volume := 1
    seekableStart := .fin 0, seekableEnd := .fin 10, liveSyncPosition := none
    userBehindLiveEdge := false, canLoadPoster := false, attemptingAutoplay := false }

/-- A baseline manager state with a provider attached (no provider-level
fullscreen), player-level fullscreen supported, orientation supported. -/
def baseState : ManagerState :=
  { store := baseStore, provider := some ⟨none⟩, queue := emptyQueue
    isSeeking := false, isLooping := false, isReplay := false
    fsSupported := true, fsActive := false
    orientationSupported := true, orientationLocked := false
    fullscreenOrientation := none, userIdlePaused := false }

/-- A loader that accepts every source. -/
def allLoader : MediaProviderLoader := ⟨fun _ => true⟩

/-- A loader that accepts only `.m3u8`-typed sources (by declared type). -/
def hlsOnlyLoader : MediaProviderLoader := ⟨fun s => s.type = ("application/x-mpegurl")⟩

def mp4Src : MediaSrc := { src := .str ("a.mp4"), type := ("video/mp4") }

def hlsSrc : MediaSrc := { src := .str ("b.m3u8"), type := ("application/x-mpegurl") }

/-! ## Claim theorems -/

/-- C1: for every normalized source list and loader list, the source
selector commits to the last source (in iteration order) that some loader's
`canPlay` accepts; in particular with candidates `[A, B]` both playable the
committed source is `B`, never `A`. -/
theorem c1_selector_commits_last_playable (loaders : List MediaProviderLoader) :
    (∀ sources B, lastPlayable sources loaders = some B →
        (selectSource sources loaders).1 = B) ∧
    (∀ A B, isPlayable loaders B = true →
        (selectSource [A, B] loaders).1 = B) ∧
    (∀ A B, isPlayable loaders B = true → A ≠ B →
        (selectSource [A, B] loaders).1 ≠ A) := by
  have key : ∀ sources B, lastPlayable sources loaders = some B →
      (selectSource sources loaders).1 = B := by
    intro sources B h
    rw [selectSource, selectSource_foldl_char loaders sources emptySelection, h]
  have two : ∀ A B, isPlayable loaders B = true →
      (selectSource [A, B] loaders).1 = B := by
    intro A B hB
    apply key
    rw [lastPlayable]
    cases hA : isPlayable loaders A with
    | true =>
      have hf : [A, B].filter (isPlayable loaders) = [A] ++ [B] := by
        simp [List.filter_cons, hA, hB]
      rw [hf, List.getLast?_concat]
    | false =>
      have hf : [A, B].filter (isPlayable loaders) = [] ++ [B] := by
        simp [List.filter_cons, hA, hB]
      rw [hf, List.getLast?_concat]
  refine ⟨key, two, ?_⟩
  intro A B hB hne
  rw [two A B hB]
  exact fun h => hne h.symm

/-- Witness for C1: with one accept-all loader and candidates
`[a.mp4, b.m3u8]`, the selector commits to `b.m3u8`. -/
theorem c1_selector_commits_last_playable_witness :
    isPlayable [allLoader] hlsSrc = true ∧
    (selectSource [mp4Src, hlsSrc] [allLoader]).1 = hlsSrc :=
  ⟨rfl, (c1_selector_commits_last_playable [allLoader]).2.1 mp4Src hlsSrc rfl⟩

/-- C5: normalization maps an entry list pointwise; an untyped non-string
handle or `blob:`-prefixed string gets type `"video/object"`, every other
untyped string gets `"?"`, and an explicit type is kept unchanged. -/
theorem c5_normalize_type_inference (l : List SrcEntry) :
    normalizeSrc (SrcProp.arr l) = l.map normalizeEntry ∧
    ∀ e ∈ l,
      (e.type = none → e.src.isString = false →
          (normalizeEntry e).type = ("video/object")) ∧
      (e.type = none → e.src.startsWithBlob = true →
          (normalizeEntry e).type = ("video/object")) ∧
      (e.type = none → e.src.isString = true → e.src.startsWithBlob = false →
          (normalizeEntry e).type = ("?")) ∧
      (∀ ty, e.type = some ty → (normalizeEntry e).type = ty) := by
  refine ⟨rfl, ?_⟩
  intro e _
  refine ⟨?_, ?_, ?_, ?_⟩ <;> intros <;> simp_all [normalizeEntry]

/-- Witness for C5: an untyped stream handle normalizes to `"video/object"`. -/
theorem c5_normalize_type_inference_witness :
    ({ src := SrcVal.handle 0, type := none } : SrcEntry).type = none ∧
    (normalizeEntry { src := SrcVal.handle 0, type := none }).type = ("video/object") := by
  refine ⟨rfl, ?_⟩
  exact ((c5_normalize_type_inference [{ src := SrcVal.handle 0, type := none }]).2 _
    (List.mem_singleton.mpr rfl)).1 rfl rfl

/-- C4: a fatal network-category engine error calls `startLoad` on the
existing instance without destroying it; a fatal media-decode error calls
`recoverMediaError`; every other fatal category destroys the instance and
clears the published reference; non-fatal errors cause none of these. -/
theorem c4_hls_fatal_error_tiers (etype : String) (i : ℕ) (inst : Option ℕ) :
    hlsOnError true ("networkError") (some i) = ⟨true, false, false, some i⟩ ∧
    hlsOnError true ("mediaError") (some i) = ⟨false, true, false, some i⟩ ∧
    (etype ≠ ("networkError") → etype ≠ ("mediaError") →
        hlsOnError true etype (some i) = ⟨false, false, true, none⟩) ∧
    hlsOnError false etype inst = ⟨false, false, false, inst⟩ := by
  refine ⟨rfl, rfl, ?_, rfl⟩
  intro h1 h2
  simp [hlsOnError, h1, h2]

/-- Witness for C4: a fatal unknown-category error destroys the instance and
clears the published reference. -/
theorem c4_hls_fatal_error_tiers_witness :
    ("otherError" : String) ≠ ("networkError") ∧
    hlsOnError true ("otherError") (some 0) = ⟨false, false, true, none⟩ :=
  ⟨by decide, (c4_hls_fatal_error_tiers ("otherError") 0 none).2.2.1 (by decide) (by decide)⟩

/-- C10: with no provider attached, the shared request listener drops every
media request event: the handler does not run, no attribution record is
enqueued, no store field changes, and no provider action is issued. -/
theorem c10_no_provider_drops_request (env : ProviderEnv) (eid : ℕ)
    (req : MediaRequest) (st : ManagerState) (h : st.provider = none) :
    handleRequestEvent env eid req st = Outcome.pure st ∧
    (handleRequestEvent env eid req st).state = st ∧
    (handleRequestEvent env eid req st).actions = [] ∧
    (handleRequestEvent env eid req st).events = [] := by
  have he : handleRequestEvent env eid req st = Outcome.pure st := by
    simp [handleRequestEvent, h]
  exact ⟨he, by rw [he]; rfl, by rw [he]; rfl, by rw [he]; rfl⟩

/-- Witness for C10: a mute request with no provider attached changes
nothing. -/
theorem c10_no_provider_drops_request_witness :
    ({ baseState with provider := none } : ManagerState).provider = none ∧
    handleRequestEvent resolvingEnv 0 .muteRequest { baseState with provider := none } =
        Outcome.pure { baseState with provider := none } :=
  ⟨rfl,
    (c10_no_provider_drops_request resolvingEnv 0 .muteRequest
      { baseState with provider := none } rfl).1⟩

/-- C6: an unmute request while muted unmutes the provider and, when the
store volume is exactly 0, additionally sets the provider volume to 0.25; an
unmute request while unmuted is a no-op; hence mute then unmute starting
from volume 0 leaves the provider unmuted at volume 0.25. -/
theorem c6_unmute_restores_floor_volume (eid : ℕ) (st st₂ : ManagerState)
    (p : ProviderState) :
    (st.store.muted = true → st.store.volume = 0 →
        (onUnmuteRequest eid st).actions = [.setMuted false, .setVolume (1/4)]) ∧
    (st.store.muted = true → st.store.volume ≠ 0 →
        (onUnmuteRequest eid st).actions = [.setMuted false]) ∧
    (st.store.muted = false → onUnmuteRequest eid st = Outcome.pure st) ∧
    (st.store.muted = false →
        (applyActions p (onMuteRequest eid st).actions).muted = true) ∧
    (st₂.store.muted = true → st₂.store.volume = 0 →
        (applyActions p (onUnmuteRequest eid st₂).actions).muted = false ∧
        (applyActions p (onUnmuteRequest eid st₂).actions).volume = 1/4) := by
  refine ⟨?_, ?_, ?_, ?_, ?_⟩ <;> intros <;>
    simp_all [onUnmuteRequest, onMuteRequest, applyActions, applyAction, Outcome.pure]

/-- Witness for C6: unmuting a muted session at volume 0 yields a provider
that is unmuted at volume 0.25. -/
theorem c6_unmute_restores_floor_volume_witness :
    ({ baseState with store := { baseStore with muted := true, volume := 0 } }
        : ManagerState).store.muted = true ∧
    (applyActions ⟨true, 0, .fin 0⟩
        (onUnmuteRequest 1
          { baseState with store := { baseStore with muted := true, volume := 0 } }).actions).muted
        = false ∧
    (applyActions ⟨true, 0, .fin 0⟩
        (onUnmuteRequest 1
          { baseState with store := { baseStore with muted := true, volume := 0 } }).actions).volume
        = 1/4 := by
  have h := (c6_unmute_restores_floor_volume 1 baseState
      { baseState with store := { baseStore with muted := true, volume := 0 } }
      ⟨true, 0, .fin 0⟩).2.2.2.2 rfl rfl
  exact ⟨rfl, h.1, h.2⟩

/-- Whether an event has its `autoplay` property assigned. -/
def PlayerEvent.autoplaySet : PlayerEvent → Bool
  | .playFail _ (some _) => true
  | _ => false

/-- C7 counterexample: when a play request's provider call rejects,
`onPlayRequest` dispatches a play-fail event whose `autoplay` property is
never assigned — the dispatched event does not carry a populated autoplay
flag as the claim states. -/
theorem c7_counterexample :
    (onPlayRequest ⟨some ("NotAllowedError"), none⟩ 5 baseState).events =
        [.playFail ("NotAllowedError") none] ∧
    ((onPlayRequest ⟨some ("NotAllowedError"), none⟩ 5 baseState).events.any
        PlayerEvent.autoplaySet) = false :=
  ⟨rfl, rfl⟩

/-- C7 amended: when a play request's provider call rejects, a play-fail
event carrying the coerced error is dispatched (its autoplay property left
unassigned — only the manager's internal `play` populates it); when a pause
request's provider call rejects, no event is dispatched and the pause
attribution record is deleted from the queue. -/
theorem c7_failure_surfacing_amended (env : ProviderEnv) (eid : ℕ)
    (st : ManagerState) (e : String) :
    (st.store.paused = true → env.playRejects = some e →
        (onPlayRequest env eid st).events = [.playFail (coerceToError e) none] ∧
        (onPlayRequest env eid st).state.queue.play = some eid) ∧
    (st.store.paused = false → env.pauseRejects = some e →
        (onPauseRequest env eid st).events = [] ∧
        (onPauseRequest env eid st).state.queue.pause = none) := by
  constructor <;> intro h1 h2 <;>
    simp_all [onPlayRequest, onPauseRequest, RequestQueue.enqueue, RequestQueue.del]

/-- Witness for the amended C7 at a rejecting provider. -/
theorem c7_failure_surfacing_amended_witness :
    baseState.store.paused = true ∧
    (onPlayRequest ⟨some ("err"), none⟩ 9 baseState).events =
        [.playFail ("err") none] :=
  ⟨rfl, ((c7_failure_surfacing_amended ⟨some ("err"), none⟩ 9 baseState ("err")).1 rfl rfl).1⟩

/-- C8 counterexample: a level-loaded event before can-play for a live
stream with a finite total duration but a non-`EVENT` playlist type derives
stream-type `"live"`, not `"live:dvr"` as the claim states. -/
theorem c8_counterexample :
    (⟨none, true, .fin 100⟩ : LevelDetails).live = true ∧
    (JSNum.fin 100).isFinite = true ∧
    hlsOnLevelLoaded false ⟨none, true, .fin 100⟩ =
        ⟨some ("live"), some (.fin 100), true⟩ ∧
    (("live") : String) ≠ ("live:dvr") :=
  ⟨rfl, rfl, rfl, by decide⟩

/-- C8 amended: before can-play, a level-loaded event derives `"live:dvr"`
exactly when the stream is live with playlist type `EVENT` and a finite
total duration, `"live"` when live otherwise, and `"on-demand"` when not
live; after can-play, level-loaded events change nothing. -/
theorem c8_stream_type_amended (canPlay : Bool) (d : LevelDetails) :
    (canPlay = true → hlsOnLevelLoaded canPlay d = ⟨none, none, false⟩) ∧
    (canPlay = false → d.live = true → d.ptype = some ("EVENT") →
        d.totalduration.isFinite = true →
        (hlsOnLevelLoaded canPlay d).streamType = some ("live:dvr")) ∧
    (canPlay = false → d.live = true →
        (d.ptype ≠ some ("EVENT") ∨ d.totalduration.isFinite = false) →
        (hlsOnLevelLoaded canPlay d).streamType = some ("live")) ∧
    (canPlay = false → d.live = false →
        (hlsOnLevelLoaded canPlay d).streamType = some ("on-demand")) := by
  refine ⟨?_, ?_, ?_, ?_⟩
  · intro h; simp [hlsOnLevelLoaded, h]
  · intro h1 h2 h3 h4; simp [hlsOnLevelLoaded, h1, h2, h3, h4]
  · rintro h1 h2 (h3 | h3) <;> simp [hlsOnLevelLoaded, h1, h2, h3]
  · intro h1 h2; simp [hlsOnLevelLoaded, h1, h2]

/-- Witness for the amended C8: a live `EVENT` playlist with finite duration
derives `"live:dvr"`. -/
theorem c8_stream_type_amended_witness :
    (JSNum.fin 100).isFinite = true ∧
    (hlsOnLevelLoaded false ⟨some ("EVENT"), true, .fin 100⟩).streamType =
        some ("live:dvr") :=
  ⟨rfl, (c8_stream_type_amended false ⟨some ("EVENT"), true, .fin 100⟩).2.1 rfl rfl rfl rfl⟩

lemma enterFullscreenFn_not_supported (target : FSTarget) (st : ManagerState)
    (h1 : st.fsSupported = false)
    (h2 : ∀ f ∈ st.provider.bind ProviderInfo.fullscreen, f.supported = false) :
    enterFullscreenFn target st =
      { state := st, actions := [], events := [], thrown := some fsNotSupportedMsg } := by
  have hres : ∀ f, resolveFS target st = some f → f.supported = false := by
    intro f hf
    rw [resolveFS] at hf
    split at hf
    · injection hf with hf
      rw [← hf]
      exact h1
    · exact h2 f hf
  cases hfs : resolveFS target st with
  | none => simp [enterFullscreenFn, hfs]
  | some f => simp [enterFullscreenFn, hfs, hres f hfs]

lemma exitFullscreenFn_not_supported (target : FSTarget) (st : ManagerState)
    (h1 : st.fsSupported = false)
    (h2 : ∀ f ∈ st.provider.bind ProviderInfo.fullscreen, f.supported = false) :
    exitFullscreenFn target st =
      { state := st, actions := [], events := [], thrown := some fsNotSupportedMsg } := by
  have hres : ∀ f, resolveFS target st = some f → f.supported = false := by
    intro f hf
    rw [resolveFS] at hf
    split at hf
    · injection hf with hf
      rw [← hf]
      exact h1
    · exact h2 f hf
  cases hfs : resolveFS target st with
  | none => simp [exitFullscreenFn, hfs]
  | some f => simp [exitFullscreenFn, hfs, hres f hfs]

/-- C9: whenever `enterFullscreen` actually enters fullscreen and an
orientation-lock preference is configured with a supported orientation
adapter, the lock is awaited strictly before the enter call; whenever
`exitFullscreen` actually exits while an orientation lock is active, the
unlock is awaited strictly before the exit call; and when neither the
player-level nor the provider fullscreen capability is supported, both calls
throw and the request handlers surface the failure as a fullscreen-error
event. -/
theorem c9_orientation_lock_ordering (target : FSTarget) (eid : ℕ)
    (st : ManagerState) (lockType : String) :
    (st.fullscreenOrientation = some lockType → st.orientationSupported = true →
        Action.fsEnter ∈ (enterFullscreenFn target st).actions →
        (enterFullscreenFn target st).actions = [.orientationLock lockType, .fsEnter]) ∧
    (st.orientationLocked = true →
        Action.fsExit ∈ (exitFullscreenFn target st).actions →
        (exitFullscreenFn target st).actions = [.orientationUnlock, .fsExit]) ∧
    (st.fsSupported = false →
        (∀ f ∈ st.provider.bind ProviderInfo.fullscreen, f.supported = false) →
        (enterFullscreenFn target st).thrown = some fsNotSupportedMsg ∧
        (exitFullscreenFn target st).thrown = some fsNotSupportedMsg ∧
        (onEnterFullscreenRequest target eid st).events =
            [.fullscreenError fsNotSupportedMsg] ∧
        (onExitFullscreenRequest target eid st).events =
            [.fullscreenError fsNotSupportedMsg]) := by
  refine ⟨?_, ?_, ?_⟩
  · intro h1 h2 hmem
    cases hfs : resolveFS target st with
    | none => simp [enterFullscreenFn, hfs] at hmem
    | some f =>
      by_cases hsup : f.supported = true
      · by_cases hact : f.active = true
        · simp [enterFullscreenFn, hfs, hsup, hact, Outcome.pure] at hmem
        · simp [enterFullscreenFn, hfs, hsup, hact, h1, h2]
      · simp [enterFullscreenFn, hfs, hsup] at hmem
  · intro h1 hmem
    cases hfs : resolveFS target st with
    | none => simp [exitFullscreenFn, hfs] at hmem
    | some f =>
      by_cases hsup : f.supported = true
      · by_cases hact : f.active = true
        · simp [exitFullscreenFn, hfs, hsup, hact, h1]
        · simp [exitFullscreenFn, hfs, hsup, hact, Outcome.pure] at hmem
      · simp [exitFullscreenFn, hfs, hsup] at hmem
  · intro h1 h2
    have he := enterFullscreenFn_not_supported target st h1 h2
    have hx := exitFullscreenFn_not_supported target st h1 h2
    have he1 := enterFullscreenFn_not_supported target
      { st with queue := st.queue.enqueue .fullscreen eid } h1 h2
    have hx1 := exitFullscreenFn_not_supported target
      { st with queue := st.queue.enqueue .fullscreen eid } h1 h2
    refine ⟨by rw [he], by rw [hx], ?_, ?_⟩
    · simp [onEnterFullscreenRequest, he1, coerceToError]
    · simp [onExitFullscreenRequest, hx1, coerceToError]

/-- Witness for C9: with a configured landscape lock, entering fullscreen
awaits the lock before the enter call. -/
theorem c9_orientation_lock_ordering_witness :
    ({ baseState with fullscreenOrientation := some ("landscape") }
        : ManagerState).fullscreenOrientation = some ("landscape") ∧
    (enterFullscreenFn .preferMedia
        { baseState with fullscreenOrientation := some ("landscape") }).actions =
      [.orientationLock ("landscape"), .fsEnter] := by
  refine ⟨rfl, (c9_orientation_lock_ordering .preferMedia 0
    { baseState with fullscreenOrientation := some ("landscape") } ("landscape")).1 rfl rfl ?_⟩
  decide

/-- C2 counterexample: a mute request handled before the can-play milestone
(provider attached, store not yet ready) neither throws nor avoids the
provider — the handler silently sets `provider.muted`, so not every
provider-dependent action is guarded by the readiness check. -/
theorem c2_counterexample :
    ({ baseState with store := { baseStore with canPlay := false } }
        : ManagerState).store.canPlay = false ∧
    (handleRequestEvent resolvingEnv 3 .muteRequest
        { baseState with store := { baseStore with canPlay := false } }).thrown = none ∧
    (handleRequestEvent resolvingEnv 3 .muteRequest
        { baseState with store := { baseStore with canPlay := false } }).actions =
      [.setMuted true] :=
  ⟨rfl, rfl, rfl⟩

/-- C2 amended: the playback actions routed through
`throwIfNotReadyForPlayback` — the manager's internal `play`, `pause` and
`seekToLiveEdge` — throw a user-visible error when invoked before the
can-play milestone (unless their own no-op guard fires first) and never
invoke the provider; in particular `play()` before can-play throws, surfaces
a play-fail event, and never calls the provider's `play`. -/
theorem c2_readiness_guard_amended (env : ProviderEnv) (st : ManagerState)
    (h : st.store.canPlay = false) :
    ((playFn env st).actions = []) ∧
    (st.store.paused = true →
        (playFn env st).thrown = some notReadyMsg ∧
        (playFn env st).events =
          [.playFail notReadyMsg (some st.store.attemptingAutoplay)]) ∧
    ((pauseFn env st).actions = []) ∧
    (st.store.paused = false → (pauseFn env st).thrown = some notReadyMsg) ∧
    (st.store.live = true → st.store.liveEdge = false → st.store.canSeek = true →
        (seekToLiveEdgeFn st).actions = [] ∧
        (seekToLiveEdgeFn st).thrown = some notReadyMsg) := by
  have hready : readyForPlayback st.provider st.store.canPlay = false := by
    simp [readyForPlayback, h]
  refine ⟨?_, ?_, ?_, ?_, ?_⟩
  · by_cases hp : st.store.paused = true <;> simp_all [playFn, Outcome.pure]
  · intro hp; simp [playFn, hp, hready]
  · by_cases hp : st.store.paused = true <;> simp_all [pauseFn, Outcome.pure]
  · intro hp; simp [pauseFn, hp, hready]
  · intro hl he hc; simp [seekToLiveEdgeFn, hl, he, hc, hready]

/-- Witness for the amended C2: a paused, not-yet-ready session's `play()`
throws and issues no provider action. -/
theorem c2_readiness_guard_amended_witness :
    ({ baseState with store := { baseStore with canPlay := false } }
        : ManagerState).store.canPlay = false ∧
    ({ baseState with store := { baseStore with canPlay := false } }
        : ManagerState).store.paused = true ∧
    (playFn resolvingEnv
        { baseState with store := { baseStore with canPlay := false } }).thrown =
      some notReadyMsg ∧
    (playFn resolvingEnv
        { baseState with store := { baseStore with canPlay := false } }).actions = [] := by
  refine ⟨rfl, rfl, ?_, ?_⟩
  · exact ((c2_readiness_guard_amended resolvingEnv
      { baseState with store := { baseStore with canPlay := false } } rfl).2.1 rfl).1
  · exact (c2_readiness_guard_amended resolvingEnv
      { baseState with store := { baseStore with canPlay := false } } rfl).1

lemma seekBound_nan (s e : JSNum) : seekBound s e JSNum.nan = JSNum.nan := by
  rcases s with _ | _ | _ | sv <;> simp [seekBound, JSNum.max, JSNum.min, JSNum.add]

/-- When the requested time exceeds `seekableEnd` (JS `>` semantics) and the
clamp is finite, the clamp equals `seekableEnd - 0.1`. -/
lemma seekBound_high (s e t : JSNum) (hf : (seekBound s e t).isFinite = true)
    (hlt : e.ltb t = true) :
    seekBound s e t = e.sub (.fin (1/10)) := by
  rcases s with _ | _ | _ | sv <;> rcases e with _ | _ | _ | ev <;>
    rcases t with _ | _ | _ | tv <;>
    simp_all [seekBound, JSNum.min, JSNum.max, JSNum.add, JSNum.sub, JSNum.neg,
      JSNum.ltb, JSNum.isFinite] <;>
    split_ifs at * <;> simp_all <;> linarith

/-- When the requested time is below `seekableStart`, the outer `max` keeps
`seekableStart + 0.1`, so the clamp is
`min(seekableStart + 0.1, seekableEnd - 0.1)`. -/
lemma seekBound_low (s e t : JSNum) (hlt : t.ltb s = true) :
    seekBound s e t = JSNum.min (s.add (.fin (1/10))) (e.sub (.fin (1/10))) := by
  have hmax : JSNum.max (s.add (.fin (1/10))) t = s.add (.fin (1/10)) := by
    rcases s with _ | _ | _ | sv <;> rcases t with _ | _ | _ | tv <;>
      simp_all [JSNum.max, JSNum.add, JSNum.ltb]
    intro h
    linarith
  rw [seekBound, hmax]

lemma onSeekRequest_actions_of_bail (t : JSNum) (trusted : Bool) (eid : ℕ)
    (st : ManagerState)
    (h : (seekBound st.store.seekableStart st.store.seekableEnd t).isFinite = false ∨
        st.store.canSeek = false) :
    (onSeekRequest t trusted eid st).actions = [] := by
  rcases h with h | h <;> simp [onSeekRequest, h]

lemma onSeekRequest_actions_of_finite (t : JSNum) (trusted : Bool) (eid : ℕ)
    (st : ManagerState)
    (hf : (seekBound st.store.seekableStart st.store.seekableEnd t).isFinite = true)
    (hc : st.store.canSeek = true) :
    (onSeekRequest t trusted eid st).actions =
      [.setCurrentTime (seekBound st.store.seekableStart st.store.seekableEnd t)] := by
  simp [onSeekRequest, hf, hc]

/-- On finite inputs the clamp computes the rational min/max expression. -/
lemma seekBound_fin (s e t : ℚ) :
    seekBound (.fin s) (.fin e) (.fin t) =
      .fin (min (max (s + 1/10) t) (e - 1/10)) := by
  rw [seekBound]
  have hadd : (JSNum.fin s).add (JSNum.fin (1/10)) = JSNum.fin (s + 1/10) := rfl
  have hsub : (JSNum.fin e).sub (JSNum.fin (1/10)) = JSNum.fin (e - 1/10) := by
    show JSNum.fin (e + -(1/10)) = JSNum.fin (e - 1/10)
    rw [sub_eq_add_neg]
  have hmax : JSNum.max (JSNum.fin (s + 1/10)) (JSNum.fin t) =
      JSNum.fin (max (s + 1/10) t) := by
    rw [JSNum.max, if_neg (by simp)]
    by_cases h : s + 1/10 < t
    · rw [if_pos (by simp only [JSNum.ltb, decide_eq_true_eq]; exact h),
        max_eq_right (le_of_lt h)]
    · rw [if_neg (by simp only [JSNum.ltb, decide_eq_true_eq]; exact h),
        max_eq_left (le_of_not_lt h)]
  rw [hadd, hsub, hmax, JSNum.min, if_neg (by simp)]
  by_cases h : max (s + 1/10) t < e - 1/10
  · rw [if_pos (by simp only [JSNum.ltb, decide_eq_true_eq]; exact h),
      min_eq_left (le_of_lt h)]
  · rw [if_neg (by simp only [JSNum.ltb, decide_eq_true_eq]; exact h),
      min_eq_right (le_of_not_lt h)]

/-- The media store of the C3 counterexample: seekable window `[0, 0.15]`,
shorter than the 0.2 the clamp interval needs. -/
def seekCexStore : MediaStore := { baseStore with seekableEnd := .fin (3/20) }

def seekCexState : ManagerState := { baseState with store := seekCexStore }

/-- C3 counterexample: with `seekableStart = 0`, `seekableEnd = 0.15` and a
seek to `-1` (below `seekableStart`) while seeking is allowed, the handler
sets `currentTime` to `0.05 = seekableEnd - 0.1`, not to
`seekableStart + 0.1 = 0.1` as the claim states. -/
theorem c3_counterexample :
    (JSNum.fin (-1)).ltb seekCexState.store.seekableStart = true ∧
    seekCexState.store.canSeek = true ∧
    (onSeekRequest (.fin (-1)) false 7 seekCexState).actions =
      [.setCurrentTime (.fin (1/20))] ∧
    JSNum.fin (1/20) ≠ seekCexState.store.seekableStart.add (.fin (1/10)) := by
  have hsb : seekBound seekCexState.store.seekableStart seekCexState.store.seekableEnd
      (.fin (-1)) = .fin (1/20) := by
    show seekBound (.fin 0) (.fin (3/20)) (.fin (-1)) = .fin (1/20)
    rw [seekBound_fin]
    norm_num [min_def, max_def]
  refine ⟨by decide, rfl, ?_, ?_⟩
  · rw [onSeekRequest_actions_of_finite _ _ _ _ (by rw [hsb]; rfl) rfl, hsb]
  · show JSNum.fin (1/20) ≠ JSNum.fin (0 + 1/10)
    simp

/-- C3 amended: on a seek commit, when the clamped value is non-finite
(including a NaN request) or seeking is disallowed the handler sets nothing;
otherwise a request above `seekableEnd` sets `currentTime` to
`seekableEnd - 0.1`, and a request below `seekableStart` sets it to
`min(seekableStart + 0.1, seekableEnd - 0.1)` (which is
`seekableStart + 0.1` whenever the seekable window is at least 0.2 long). -/
theorem c3_seek_clamp_amended (t : JSNum) (trusted : Bool) (eid : ℕ)
    (st : ManagerState) :
    ((seekBound st.store.seekableStart st.store.seekableEnd t).isFinite = false ∨
        st.store.canSeek = false →
      (onSeekRequest t trusted eid st).actions = []) ∧
    (t = JSNum.nan → (onSeekRequest t trusted eid st).actions = []) ∧
    ((seekBound st.store.seekableStart st.store.seekableEnd t).isFinite = true →
      st.store.canSeek = true →
      (st.store.seekableEnd.ltb t = true →
        (onSeekRequest t trusted eid st).actions =
          [.setCurrentTime (st.store.seekableEnd.sub (.fin (1/10)))]) ∧
      (t.ltb st.store.seekableStart = true →
        (onSeekRequest t trusted eid st).actions =
          [.setCurrentTime (JSNum.min (st.store.seekableStart.add (.fin (1/10)))
              (st.store.seekableEnd.sub (.fin (1/10))))])) := by
  refine ⟨onSeekRequest_actions_of_bail t trusted eid st, ?_, ?_⟩
  · intro ht
    exact onSeekRequest_actions_of_bail t trusted eid st
      (Or.inl (by rw [ht, seekBound_nan]; rfl))
  · intro hf hc
    constructor
    · intro hlt
      rw [onSeekRequest_actions_of_finite t trusted eid st hf hc,
        seekBound_high st.store.seekableStart st.store.seekableEnd t hf hlt]
    · intro hlt
      rw [onSeekRequest_actions_of_finite t trusted eid st hf hc,
        seekBound_low st.store.seekableStart st.store.seekableEnd t hlt]

/-- Witness for the amended C3: seeking to 50 on a `[0, 10]` window sets
`currentTime` to `9.9`. -/
theorem c3_seek_clamp_amended_witness :
    baseState.store.seekableEnd.ltb (.fin 50) = true ∧
    (onSeekRequest (.fin 50) false 2 baseState).actions =
      [.setCurrentTime (baseState.store.seekableEnd.sub (.fin (1/10)))] := by
  have hf : (seekBound baseState.store.seekableStart baseState.store.seekableEnd
      (.fin 50)).isFinite = true := by
    show (seekBound (.fin 0) (.fin 10) (.fin 50)).isFinite = true
    rw [seekBound_fin]
    rfl
  refine ⟨by decide, ((c3_seek_clamp_amended (.fin 50) false 2 baseState).2.2
    hf rfl).1 (by decide)⟩

end Player
